import Mathlib

/-!
Verification of the particle animation code of the portfolio website.

The repository ships three near-duplicate particle systems:
  * `src/script.js` — class `ParticleSystem` (the "class-based system");
  * `src/unnamed/part_001` — an enhanced copy of the same class;
  * `src/unnamed/part_000` — a function-based loop (`initializeParticles`).

The embedding below models the class-based system of `src/script.js`
(positions, velocities and opacities as rationals; the value of
`Math.sin(now * pulseSpeed)` is passed in as an explicit sample `s`,
and the value of `Math.random()` as an explicit sample `r`), together
with the places where `src/unnamed/part_000` differs: its particle count
(50), its connection pass (every frame, threshold 150, opacity
`0.1 * (1 - d / 150)`), and its edge policy (`Particle.update` bounces —
it negates the velocity component when the new position leaves
`[0, dimension]` and never relocates the position).
-/

namespace Website

/-- A particle of the class-based `ParticleSystem` (`src/script.js`, `init`,
lines 100-110): position, velocity, radius, opacity and pulse speed. -/
structure Particle where
  x : ℚ
  y : ℚ
  vx : ℚ
  vy : ℚ
  radius : ℚ
  opacity : ℚ
  pulseSpeed : ℚ
  deriving DecidableEq, Repr

/-- `Math.min(frameTime * 0.016, 1)` (`src/script.js` line 136). -/
def deltaTime (frameTime : ℚ) : ℚ := min (frameTime * (16 / 1000)) 1

/-- `0.3 + 0.2 * Math.sin(now * pulseSpeed)` (`src/script.js` line 141);
`s` stands for the sine sample `Math.sin(now * pulseSpeed)`. -/
def pulseOpacity (s : ℚ) : ℚ := 3 / 10 + (2 / 10) * s

/-- `Math.random() * 0.6 + 0.2` (`src/script.js` line 107); `r` stands for
the random sample, drawn from `[0, 1)`. -/
def initOpacity (r : ℚ) : ℚ := r * (6 / 10) + 2 / 10

/-- `(Math.random() - 0.5) * 0.5` (`src/script.js` lines 104-105); `r`
stands for the random sample, drawn from `[0, 1)`. -/
def initVelocity (r : ℚ) : ℚ := (r - 1 / 2) * (1 / 2)

/-- Edge wrap on the x axis (`src/script.js` lines 144-145):
`if (x < -radius) x = width + radius; else if (x > width + radius) x = -radius;`. -/
def wrapX (width : ℚ) (p : Particle) : Particle :=
  if p.x < -p.radius then { p with x := width + p.radius }
  else if p.x > width + p.radius then { p with x := -p.radius }
  else p

/-- Edge wrap on the y axis (`src/script.js` lines 146-147). -/
def wrapY (height : ℚ) (p : Particle) : Particle :=
  if p.y < -p.radius then { p with y := height + p.radius }
  else if p.y > height + p.radius then { p with y := -p.radius }
  else p

/-- One animation-frame update of one particle (`src/script.js` lines
136-147): position integration by `v * deltaTime`, opacity pulse with sine
sample `s`, then edge wrap on x and on y, in the source's order. -/
def updateParticle (width height dt s : ℚ) (p : Particle) : Particle :=
  wrapY height (wrapX width
    { p with
      x := p.x + p.vx * dt
      y := p.y + p.vy * dt
      opacity := pulseOpacity s })

/-- The particle after a sequence of frames; each frame supplies its
`deltaTime` value and its sine sample. -/
def runFrames (width height : ℚ) (inputs : List (ℚ × ℚ)) (p : Particle) : Particle :=
  inputs.foldl (fun q i => updateParticle width height i.1 i.2 q) p

/-- The wrap invariant: the particle lies within `[-radius, dimension + radius]`
on both axes. -/
def inBounds (width height : ℚ) (p : Particle) : Prop :=
  -p.radius ≤ p.x ∧ p.x ≤ width + p.radius ∧
  -p.radius ≤ p.y ∧ p.y ≤ height + p.radius

instance (width height : ℚ) (p : Particle) : Decidable (inBounds width height p) := by
  unfold inBounds
  infer_instance

/-- Squared distance between two particles (`drawConnections`,
`src/script.js` lines 184-186: `dx * dx + dy * dy`). -/
def distSq (p q : Particle) : ℚ :=
  (p.x - q.x) * (p.x - q.x) + (p.y - q.y) * (p.y - q.y)

/-- `const maxDistance = 80` (`src/script.js` line 176). -/
def maxDistance : ℚ := 80

/-- Connection line opacity `(1 - distance / maxDistance) * 0.15`
(`src/script.js` line 190), as a function of the distance. -/
def connectionOpacity (d : ℚ) : ℚ := (1 - d / maxDistance) * (15 / 100)

/-- The inner loop body of `drawConnections` at the index pair `(i, j)`:
a line is emitted exactly when `distanceSquared < maxDistanceSquared`
(`src/script.js` line 188; the loop bounds guarantee the lookups succeed). -/
def connectionEntry (ps : List Particle) (i j : ℕ) : Option (ℕ × ℕ) :=
  (ps.get? i).bind fun p => (ps.get? j).bind fun q =>
    if distSq p q < maxDistance * maxDistance then some (i, j) else none

/-- The index pairs `drawConnections` draws a line for (`src/script.js`
lines 179-199): `i` ranges over all indices, `j` from `i + 1` up. -/
def drawConnections (ps : List Particle) : List (ℕ × ℕ) :=
  (List.range ps.length).flatMap fun i =>
    (List.range' (i + 1) (ps.length - (i + 1))).filterMap fun j =>
      connectionEntry ps i j

/-- The spec's worked example, first particle: position `(10, 10)` (the other
fields are arbitrary concrete values; the connection pass reads only
positions). -/
def exampleParticleA : Particle :=
  { x := 10, y := 10, vx := 0, vy := 0, radius := 2, opacity := 1 / 2,
    pulseSpeed := 1 / 100 }

/-- The spec's worked example, second particle: position `(70, 10)`. -/
def exampleParticleB : Particle :=
  { x := 70, y := 10, vx := 0, vy := 0, radius := 2, opacity := 1 / 2,
    pulseSpeed := 1 / 100 }

/-- `getParticleCount` (`src/script.js` lines 80-92 and
`src/unnamed/part_001` lines 101-113, identical): 15 on low-performance
devices or narrow viewports, 25 below 1200px, else 40 with WebGL and 30
without. `lowPerfDevice` stands for the user-agent test, `iw` for
`window.innerWidth`, `gl` for the WebGL context probe. -/
def getParticleCount (lowPerfDevice : Bool) (iw : ℕ) (gl : Bool) : ℕ :=
  if lowPerfDevice || decide (iw < 768) then 15
  else if iw < 1200 then 25
  else if gl then 40 else 30

/-- The particle count the class constructor ends up with
(`src/script.js` lines 8 and 27-30): `getParticleCount`, clamped to 15 by
`Math.min(particleCount, 15)` when `checkWebGLSupport` fails. -/
def constructorParticleCount (lowPerfDevice : Bool) (iw : ℕ) (gl webglSupport : Bool) : ℕ :=
  if webglSupport then getParticleCount lowPerfDevice iw gl
  else min (getParticleCount lowPerfDevice iw gl) 15

/-- `const particleCount = 50` of the function-based loop
(`src/unnamed/part_000` line 108). -/
def part000ParticleCount : ℕ := 50

/-- The particle list the function-based loop builds
(`src/unnamed/part_000` lines 138-140): `particleCount` particles pushed in
a loop; `mk` stands for the random `Particle` constructor. -/
def part000Particles (mk : ℕ → Particle) : List Particle :=
  (List.range part000ParticleCount).map mk

/-- The operations of the class constructor, in source order
(`src/script.js` lines 2-42 and `src/unnamed/part_001` lines 2-45):
`getParticleCount` runs at line 8 before any early exit; a missing canvas
context or the reduced-motion preference returns before `resize`, `init`,
`animate` and `setupEventListeners`; a failed WebGL probe only clamps the
count. -/
inductive CtorStep where
  | getCount
  | webglProbe
  | resizeStep
  | initParticles
  | animateStart
  | listeners
  deriving DecidableEq, Repr

/-- The call trace of the constructor as a function of the host environment:
`canvasOk` stands for `this.canvas && this.ctx`, `reducedMotion` for the
`prefers-reduced-motion: reduce` media query, the WebGL probe outcome only
affects the count. -/
def constructorCalls (canvasOk reducedMotion : Bool) : List CtorStep :=
  CtorStep.getCount ::
    (if canvasOk = false then []
     else if reducedMotion then []
     else [CtorStep.webglProbe, CtorStep.resizeStep, CtorStep.initParticles,
       CtorStep.animateStart, CtorStep.listeners])

/-- The drawing operations of one frame of the class-based `animate`
(`src/script.js` lines 113-173): clear the surface, update and draw every
particle, draw connections only when `frameCount % 2 === 0`, then schedule
the next frame. `frameCount` starts at 0 and increments once per frame, so
on the n-th executed frame it equals n. -/
inductive FrameOp where
  | clearSurface
  | updateAndDraw
  | connections
  | schedule
  deriving DecidableEq, Repr

/-- The operation list of the n-th frame of the class-based system;
`n` is the value of `frameCount` during that frame. -/
def scriptFrame (n : ℕ) : List FrameOp :=
  [FrameOp.clearSurface, FrameOp.updateAndDraw] ++
    (if n % 2 = 0 then [FrameOp.connections] else []) ++ [FrameOp.schedule]

/-- `frameCount` after n executed frames: it starts at 0 and the frame body
runs `this.frameCount = (this.frameCount || 0) + 1` once
(`src/script.js` line 165). -/
def frameCountAfter : ℕ → ℕ
  | 0 => 0
  | n + 1 => frameCountAfter n + 1

/-- The operation list of any frame of the function-based loop
(`src/unnamed/part_000` lines 142-166): clear, update and draw every
particle, draw connections, schedule — with no frame counter and no parity
test, the body is the same on every frame `n`. -/
def part000Frame (n : ℕ) : List FrameOp :=
  [FrameOp.clearSurface, FrameOp.updateAndDraw, FrameOp.connections,
    FrameOp.schedule]

/-- The scheduling state of one running class-based system: `isVisible` and
`animationId` are the instance fields of those names (`animationId` modelled
as whether the stored handle is non-null), `pending` counts the callbacks
currently scheduled with the host via `requestAnimationFrame`. -/
structure SysState where
  isVisible : Bool
  animationId : Bool
  pending : ℕ
  deriving DecidableEq, Repr

/-- The body of `animate` (`src/script.js` lines 113-172), run with canvas
and context available: when the page is not visible it nulls the handle and
schedules nothing (lines 115-118); otherwise it renders and stores the
handle of the next frame it schedules (line 167). -/
def animateBody (st : SysState) : SysState :=
  if st.isVisible = false then { st with animationId := false }
  else { st with animationId := true, pending := st.pending + 1 }

/-- The events that drive the scheduling state: a scheduled frame callback
firing, or the `visibilitychange` handler running with the new visibility. -/
inductive SysEvent where
  | frameFired
  | visibilityChange (visible : Bool)
  deriving DecidableEq, Repr

/-- One event step. A firing frame consumes its scheduled callback and runs
`animate`; a frame cannot fire when none is scheduled (modelled as a no-op).
The `visibilitychange` handler (`src/script.js` lines 68-77) sets
`isVisible` and calls `animate` only when the page became visible and no
frame handle is pending (`if (this.isVisible && !this.animationId)`). -/
def stepEvent (st : SysState) (e : SysEvent) : SysState :=
  match e with
  | SysEvent.frameFired =>
      if st.pending = 0 then st
      else animateBody { st with pending := st.pending - 1 }
  | SysEvent.visibilityChange b =>
      if b && !st.animationId then animateBody { st with isVisible := b }
      else { st with isVisible := b }

/-- At most one frame callback is ever scheduled, and the stored handle is
non-null exactly when one is. -/
def SysInv (st : SysState) : Prop :=
  st.pending ≤ 1 ∧ (st.animationId = true ↔ st.pending = 1)

instance (st : SysState) : Decidable (SysInv st) := by
  unfold SysInv
  infer_instance

/-- The state right after the constructor's initial `animate` call
(`src/script.js` line 34): visible, one frame scheduled, handle stored. -/
def initState : SysState :=
  { isVisible := true, animationId := true, pending := 1 }

/-- `destroy` (`src/script.js` lines 202-207 and `src/unnamed/part_001`
lines 253-258): when a handle is stored, cancel that scheduled frame via
`cancelAnimationFrame` and null the handle; otherwise do nothing. -/
def destroy (st : SysState) : SysState :=
  if st.animationId then { st with animationId := false, pending := st.pending - 1 }
  else st

/-- `Particle.update` of the function-based loop (`src/unnamed/part_000`
lines 121-127): `x += vx; y += vy;` then
`if (this.x < 0 || this.x > canvas.width) this.vx = -this.vx;` and the same
on y — a bounce: the velocity component is negated when the new position
leaves `[0, dimension]`, and the position itself is never relocated.
(That `Particle` has no `pulseSpeed` field; the field is simply unused
here, as are `radius` and `opacity`, which the update does not touch.) -/
def part000Update (width height : ℚ) (p : Particle) : Particle :=
  { p with
    x := p.x + p.vx
    y := p.y + p.vy
    vx := if p.x + p.vx < 0 ∨ p.x + p.vx > width then -p.vx else p.vx
    vy := if p.y + p.vy < 0 ∨ p.y + p.vy > height then -p.vy else p.vy }

/-- The particle after `n` frames of the function-based loop
(`src/unnamed/part_000` lines 142-148): `update` runs once per frame, with
no `deltaTime` scaling and no opacity pulse. -/
def part000Run (width height : ℚ) : ℕ → Particle → Particle
  | 0, p => p
  | n + 1, p => part000Run width height n (part000Update width height p)

/-- The reachable region of the bounce dynamics on one axis: inside
`[0, dim]`, or just below 0 moving right by `v` (the overshoot is at most
the constant step `v`), or just above `dim` moving left. -/
def bounceInv (dim x v : ℚ) : Prop :=
  (0 ≤ x ∧ x ≤ dim) ∨ (0 < v ∧ -v ≤ x ∧ x < 0) ∨ (v < 0 ∧ dim < x ∧ x ≤ dim - v)

/-- A particle of the function-based loop one step away from crossing the
left edge: the integrated position `1 + (-4) = -3` is below `-radius`. -/
def part000CrossP : Particle :=
  { x := 1, y := 10, vx := -4, vy := 0, radius := 2, opacity := 1 / 2,
    pulseSpeed := 1 / 100 }

/-- A particle used to exercise the class-based edge wrap: one step of
`vx = 20` pushes it past the right edge. -/
def edgeParticle : Particle :=
  { x := 10, y := 10, vx := 20, vy := 0, radius := 2, opacity := 1 / 2,
    pulseSpeed := 1 / 100 }

/-- A particle inside an 800 by 600 canvas with initialized-range velocity
components, used to exercise the wrap and bounce invariants. -/
def sampleParticle : Particle :=
  { x := 10, y := 10, vx := 1 / 10, vy := -(1 / 10), radius := 2,
    opacity := 1 / 2, pulseSpeed := 1 / 100 }

/-- `connectionDistance = 150` of the function-based loop
(`src/unnamed/part_000` line 109). -/
def part000ConnectionDistance : ℚ := 150

/-- Connection line opacity of the function-based pass
(`src/unnamed/part_000` line 158): `0.1 * (1 - distance / connectionDistance)`. -/
def part000Opacity (d : ℚ) : ℚ := (1 / 10) * (1 - d / part000ConnectionDistance)

/-- The loop body of the function-based connection pass at the index pair
`(i, j)` (`src/unnamed/part_000` lines 151-162): the source compares
`Math.hypot(dx, dy) < connectionDistance`; both sides being nonnegative,
this is the squared comparison used here (the theorem states the
square-root form). -/
def part000ConnectionEntry (ps : List Particle) (i j : ℕ) : Option (ℕ × ℕ) :=
  (ps.get? i).bind fun p => (ps.get? j).bind fun q =>
    if distSq p q < part000ConnectionDistance * part000ConnectionDistance
    then some (i, j) else none

/-- The index pairs the function-based pass draws a line for
(`src/unnamed/part_000` lines 150-163): `forEach` over all `i`,
`slice(i + 1)` for the partners, so `j` ranges from `i + 1` up. -/
def part000Connections (ps : List Particle) : List (ℕ × ℕ) :=
  (List.range ps.length).flatMap fun i =>
    (List.range' (i + 1) (ps.length - (i + 1))).filterMap fun j =>
      part000ConnectionEntry ps i j

theorem wrapX_radius (w : ℚ) (p : Particle) : (wrapX w p).radius = p.radius := by
  unfold wrapX
  split_ifs <;> rfl

theorem wrapY_radius (h : ℚ) (p : Particle) : (wrapY h p).radius = p.radius := by
  unfold wrapY
  split_ifs <;> rfl

theorem wrapX_y (w : ℚ) (p : Particle) : (wrapX w p).y = p.y := by
  unfold wrapX
  split_ifs <;> rfl

theorem wrapY_x (h : ℚ) (p : Particle) : (wrapY h p).x = p.x := by
  unfold wrapY
  split_ifs <;> rfl

theorem wrapX_vx (w : ℚ) (p : Particle) : (wrapX w p).vx = p.vx := by
  unfold wrapX
  split_ifs <;> rfl

theorem wrapX_vy (w : ℚ) (p : Particle) : (wrapX w p).vy = p.vy := by
  unfold wrapX
  split_ifs <;> rfl

theorem wrapY_vx (h : ℚ) (p : Particle) : (wrapY h p).vx = p.vx := by
  unfold wrapY
  split_ifs <;> rfl

theorem wrapY_vy (h : ℚ) (p : Particle) : (wrapY h p).vy = p.vy := by
  unfold wrapY
  split_ifs <;> rfl

theorem wrapX_opacity (w : ℚ) (p : Particle) : (wrapX w p).opacity = p.opacity := by
  unfold wrapX
  split_ifs <;> rfl

theorem wrapY_opacity (h : ℚ) (p : Particle) : (wrapY h p).opacity = p.opacity := by
  unfold wrapY
  split_ifs <;> rfl

/-- After the x wrap the x coordinate is inside `[-radius, width + radius]`,
for a canvas of nonnegative width and a particle of nonnegative radius. -/
theorem wrapX_x_bounds (w : ℚ) (p : Particle) (hw : 0 ≤ w) (hr : 0 ≤ p.radius) :
    -p.radius ≤ (wrapX w p).x ∧ (wrapX w p).x ≤ w + p.radius := by
  unfold wrapX
  split_ifs with h1 h2
  · dsimp only
    constructor <;> linarith
  · dsimp only
    constructor <;> linarith
  · exact ⟨le_of_not_lt h1, le_of_not_lt h2⟩

/-- After the y wrap the y coordinate is inside `[-radius, height + radius]`. -/
theorem wrapY_y_bounds (h : ℚ) (p : Particle) (hh : 0 ≤ h) (hr : 0 ≤ p.radius) :
    -p.radius ≤ (wrapY h p).y ∧ (wrapY h p).y ≤ h + p.radius := by
  unfold wrapY
  split_ifs with h1 h2
  · dsimp only
    constructor <;> linarith
  · dsimp only
    constructor <;> linarith
  · exact ⟨le_of_not_lt h1, le_of_not_lt h2⟩

theorem updateParticle_radius (w h dt s : ℚ) (p : Particle) :
    (updateParticle w h dt s p).radius = p.radius := by
  unfold updateParticle
  rw [wrapY_radius, wrapX_radius]

/-- A single frame update always re-establishes the wrap invariant, whatever
state the particle was in before the frame. -/
theorem updateParticle_inBounds (w h dt s : ℚ) (p : Particle)
    (hw : 0 ≤ w) (hh : 0 ≤ h) (hr : 0 ≤ p.radius) :
    inBounds w h (updateParticle w h dt s p) := by
  unfold updateParticle inBounds
  set p1 : Particle :=
    { p with
      x := p.x + p.vx * dt
      y := p.y + p.vy * dt
      opacity := pulseOpacity s } with hp1
  have hr1 : p1.radius = p.radius := rfl
  have hxb := wrapX_x_bounds w p1 hw (by rw [hr1]; exact hr)
  have hr2 : (wrapX w p1).radius = p1.radius := wrapX_radius w p1
  have hyb := wrapY_y_bounds h (wrapX w p1) hh (by rw [hr2, hr1]; exact hr)
  refine ⟨?_, ?_, ?_, ?_⟩
  · rw [wrapY_radius, wrapY_x, hr2, hr1]
    rw [hr1] at hxb
    exact hxb.1
  · rw [wrapY_radius, wrapY_x, hr2, hr1]
    rw [hr1] at hxb
    exact hxb.2
  · rw [wrapY_radius, hr2, hr1]
    rw [hr2, hr1] at hyb
    exact hyb.1
  · rw [wrapY_radius, hr2, hr1]
    rw [hr2, hr1] at hyb
    exact hyb.2

theorem runFrames_inBounds (w h : ℚ) (inputs : List (ℚ × ℚ)) (p : Particle)
    (hw : 0 ≤ w) (hh : 0 ≤ h) (hr : 0 ≤ p.radius) (hp : inBounds w h p) :
    inBounds w h (runFrames w h inputs p) := by
  induction inputs generalizing p with
  | nil => exact hp
  | cons i rest ih =>
      have hstep := updateParticle_inBounds w h i.1 i.2 p hw hh hr
      have hrad : (updateParticle w h i.1 i.2 p).radius = p.radius :=
        updateParticle_radius w h i.1 i.2 p
      exact ih (updateParticle w h i.1 i.2 p) (by rw [hrad]; exact hr) hstep

/-- One bounce step preserves the reachable region: the step moves by `v`
and negates `v` exactly when the new position left `[0, dim]`. -/
theorem bounceInv_step (dim x v : ℚ) (hdim : 0 ≤ dim) (h : bounceInv dim x v) :
    bounceInv dim (x + v) (if x + v < 0 ∨ x + v > dim then -v else v) := by
  unfold bounceInv at h ⊢
  by_cases hf : x + v < 0 ∨ x + v > dim
  · rw [if_pos hf]
    rcases h with ⟨h1, h2⟩ | ⟨h1, h2, h3⟩ | ⟨h1, h2, h3⟩ <;> rcases hf with hf | hf
    · exact Or.inr (Or.inl ⟨by linarith, by linarith, hf⟩)
    · exact Or.inr (Or.inr ⟨by linarith, hf, by linarith⟩)
    · exact absurd hf (by linarith)
    · exact Or.inr (Or.inr ⟨by linarith, hf, by linarith⟩)
    · exact Or.inr (Or.inl ⟨by linarith, by linarith, hf⟩)
    · exact absurd hf (by linarith)
  · rw [if_neg hf]
    push_neg at hf
    exact Or.inl hf

/-- The reachable region lies within `[-r, dim + r]` whenever the step size
is bounded by `r`. -/
theorem bounceInv_bounds (dim x v r : ℚ) (hdim : 0 ≤ dim)
    (hv0 : -r ≤ v) (hv1 : v ≤ r) (h : bounceInv dim x v) :
    -r ≤ x ∧ x ≤ dim + r := by
  unfold bounceInv at h
  rcases h with ⟨h1, h2⟩ | ⟨h1, h2, h3⟩ | ⟨h1, h2, h3⟩ <;> constructor <;> linarith

/-- A conditional negation keeps the velocity bound. -/
theorem negFlip_bounds (r v : ℚ) (c : Prop) [Decidable c] (h0 : -r ≤ v) (h1 : v ≤ r) :
    -r ≤ (if c then -v else v) ∧ (if c then -v else v) ≤ r := by
  split_ifs <;> constructor <;> linarith

theorem part000Update_radius (w h : ℚ) (p : Particle) :
    (part000Update w h p).radius = p.radius := rfl

theorem part000Run_radius (w h : ℚ) (n : ℕ) (p : Particle) :
    (part000Run w h n p).radius = p.radius := by
  induction n generalizing p with
  | zero => rfl
  | succ n ih =>
      rw [show part000Run w h (n + 1) p
            = part000Run w h n (part000Update w h p) from rfl]
      rw [ih (part000Update w h p), part000Update_radius]

/-- Any number of bounce frames keeps both axes in the reachable region and
keeps the velocity components within `[-r, r]`. -/
theorem part000Run_inv (w h r : ℚ) (hw : 0 ≤ w) (hh : 0 ≤ h) (n : ℕ) :
    ∀ p : Particle, bounceInv w p.x p.vx → bounceInv h p.y p.vy →
      -r ≤ p.vx → p.vx ≤ r → -r ≤ p.vy → p.vy ≤ r →
      bounceInv w (part000Run w h n p).x (part000Run w h n p).vx ∧
      bounceInv h (part000Run w h n p).y (part000Run w h n p).vy ∧
      -r ≤ (part000Run w h n p).vx ∧ (part000Run w h n p).vx ≤ r ∧
      -r ≤ (part000Run w h n p).vy ∧ (part000Run w h n p).vy ≤ r := by
  induction n with
  | zero =>
      intro p hx hy hvx0 hvx1 hvy0 hvy1
      exact ⟨hx, hy, hvx0, hvx1, hvy0, hvy1⟩
  | succ n ih =>
      intro p hx hy hvx0 hvx1 hvy0 hvy1
      have hx1 : bounceInv w (part000Update w h p).x (part000Update w h p).vx :=
        bounceInv_step w p.x p.vx hw hx
      have hy1 : bounceInv h (part000Update w h p).y (part000Update w h p).vy :=
        bounceInv_step h p.y p.vy hh hy
      have hvx : -r ≤ (part000Update w h p).vx ∧ (part000Update w h p).vx ≤ r :=
        negFlip_bounds r p.vx _ hvx0 hvx1
      have hvy : -r ≤ (part000Update w h p).vy ∧ (part000Update w h p).vy ≤ r :=
        negFlip_bounds r p.vy _ hvy0 hvy1
      exact ih (part000Update w h p) hx1 hy1 hvx.1 hvx.2 hvy.1 hvy.2

/-- C1: for every particle and every number of animation update steps — in
the class-based wrap loop of `src/script.js` and equally in the bounce loop
of `src/unnamed/part_000` — after each step the particle's x position lies
within `[-radius, width + radius]` and its y position within
`[-radius, height + radius]`, assuming the particle starts inside the
canvas, its velocity components lie in the initialized range
`[-0.25, 0.25]` (so per-step displacement is bounded by that range: the
class-based `deltaTime` factor is capped at 1, the bounce loop steps by the
velocity itself), and its radius is at least the initialized minimum 1. -/
theorem c1_wrap_invariant (w h : ℚ) (p : Particle) (inputs : List (ℚ × ℚ)) (n : ℕ)
    (hw : 0 ≤ w) (hh : 0 ≤ h) (hr : 1 ≤ p.radius)
    (hx0 : 0 ≤ p.x) (hx1 : p.x ≤ w) (hy0 : 0 ≤ p.y) (hy1 : p.y ≤ h)
    (hvx0 : -(1 / 4) ≤ p.vx) (hvx1 : p.vx ≤ 1 / 4)
    (hvy0 : -(1 / 4) ≤ p.vy) (hvy1 : p.vy ≤ 1 / 4) :
    inBounds w h (runFrames w h inputs p) ∧
    inBounds w h (part000Run w h n p) := by
  constructor
  · refine runFrames_inBounds w h inputs p hw hh (by linarith) ⟨?_, ?_, ?_, ?_⟩ <;>
      linarith
  · obtain ⟨hbx, hby, hv1, hv2, hv3, hv4⟩ :=
      part000Run_inv w h (1 / 4) hw hh n p
        (Or.inl ⟨hx0, hx1⟩) (Or.inl ⟨hy0, hy1⟩) hvx0 hvx1 hvy0 hvy1
    have hxb := bounceInv_bounds w _ _ (1 / 4) hw hv1 hv2 hbx
    have hyb := bounceInv_bounds h _ _ (1 / 4) hh hv3 hv4 hby
    have hrad : (part000Run w h n p).radius = p.radius := part000Run_radius w h n p
    unfold inBounds
    rw [hrad]
    exact ⟨by linarith [hxb.1], by linarith [hxb.2],
      by linarith [hyb.1], by linarith [hyb.2]⟩

/-- Witness for C1 at a concrete canvas, two class-based frame steps and
three bounce steps. -/
theorem c1_wrap_invariant_witness :
    inBounds 800 600 (runFrames 800 600 [(1, 0), (20, 1)] sampleParticle) ∧
    inBounds 800 600 (part000Run 800 600 3 sampleParticle) :=
  c1_wrap_invariant 800 600 sampleParticle [(1, 0), (20, 1)] 3
    (by norm_num) (by norm_num) (by norm_num [sampleParticle])
    (by norm_num [sampleParticle]) (by norm_num [sampleParticle])
    (by norm_num [sampleParticle]) (by norm_num [sampleParticle])
    (by norm_num [sampleParticle]) (by norm_num [sampleParticle])
    (by norm_num [sampleParticle]) (by norm_num [sampleParticle])

/-- C3 counterexample: in `src/unnamed/part_000` the particle
`part000CrossP` is moved past the left boundary by its position update
(`1 + (-4) = -3 < -radius = -2`), yet the per-frame edge policy of that
loop leaves its position at `-3` instead of relocating it to
`width + radius = 802`, and negates its velocity (`-4` becomes `4`) — so
"relocates it to the opposite edge offset by its radius ... leaving
velocity unchanged" fails on that cited update. -/
theorem c3_counterexample :
    part000CrossP.x + part000CrossP.vx < -part000CrossP.radius ∧
    (part000Update 800 600 part000CrossP).x = -3 ∧
    ¬ (part000Update 800 600 part000CrossP).x = 800 + part000CrossP.radius ∧
    (part000Update 800 600 part000CrossP).vx = 4 ∧
    ¬ (part000Update 800 600 part000CrossP).vx = part000CrossP.vx := by
  have hx : (part000Update 800 600 part000CrossP).x = -3 := by
    show part000CrossP.x + part000CrossP.vx = -3
    norm_num [part000CrossP]
  have hvx : (part000Update 800 600 part000CrossP).vx = 4 := by
    show (if part000CrossP.x + part000CrossP.vx < 0 ∨
            part000CrossP.x + part000CrossP.vx > 800
          then -part000CrossP.vx else part000CrossP.vx) = 4
    rw [if_pos (by norm_num [part000CrossP])]
    norm_num [part000CrossP]
  refine ⟨by norm_num [part000CrossP], hx, ?_, hvx, ?_⟩
  · rw [hx]
    norm_num [part000CrossP]
  · rw [hvx]
    norm_num [part000CrossP]

/-- C3 amended: in the class-based systems a particle whose position update
moves it past a canvas boundary is relocated by the per-frame edge policy to
the opposite edge offset by its radius (for a canvas of nonnegative
dimensions and a particle of nonnegative radius, so that the two boundary
cases of the else-if chain are exclusive), with velocity unchanged; the
function-based loop of `src/unnamed/part_000` instead keeps the integrated
position and negates the velocity component whose new coordinate left
`[0, dimension]` — a bounce, not a relocation. -/
theorem c3_edge_policies (w h dt s : ℚ) (p : Particle)
    (hw : 0 ≤ w) (hh : 0 ≤ h) (hr : 0 ≤ p.radius) :
    (((p.x + p.vx * dt < -p.radius → (updateParticle w h dt s p).x = w + p.radius) ∧
      (p.x + p.vx * dt > w + p.radius → (updateParticle w h dt s p).x = -p.radius) ∧
      (p.y + p.vy * dt < -p.radius → (updateParticle w h dt s p).y = h + p.radius) ∧
      (p.y + p.vy * dt > h + p.radius → (updateParticle w h dt s p).y = -p.radius)) ∧
     (updateParticle w h dt s p).vx = p.vx ∧
     (updateParticle w h dt s p).vy = p.vy) ∧
    ((part000Update w h p).x = p.x + p.vx ∧
     (part000Update w h p).y = p.y + p.vy ∧
     (p.x + p.vx < 0 ∨ p.x + p.vx > w → (part000Update w h p).vx = -p.vx) ∧
     (¬(p.x + p.vx < 0 ∨ p.x + p.vx > w) → (part000Update w h p).vx = p.vx) ∧
     (p.y + p.vy < 0 ∨ p.y + p.vy > h → (part000Update w h p).vy = -p.vy) ∧
     (¬(p.y + p.vy < 0 ∨ p.y + p.vy > h) → (part000Update w h p).vy = p.vy)) := by
  constructor
  · unfold updateParticle wrapX wrapY
    dsimp only
    split_ifs <;> dsimp only at * <;>
      refine ⟨⟨fun hc => ?_, fun hc => ?_, fun hc => ?_, fun hc => ?_⟩, rfl, rfl⟩ <;>
      first
        | rfl
        | (exfalso; linarith)
  · refine ⟨rfl, rfl, fun hc => ?_, fun hc => ?_, fun hc => ?_, fun hc => ?_⟩
    · show (if p.x + p.vx < 0 ∨ p.x + p.vx > w then -p.vx else p.vx) = -p.vx
      rw [if_pos hc]
    · show (if p.x + p.vx < 0 ∨ p.x + p.vx > w then -p.vx else p.vx) = p.vx
      rw [if_neg hc]
    · show (if p.y + p.vy < 0 ∨ p.y + p.vy > h then -p.vy else p.vy) = -p.vy
      rw [if_pos hc]
    · show (if p.y + p.vy < 0 ∨ p.y + p.vy > h then -p.vy else p.vy) = p.vy
      rw [if_neg hc]

/-- Witness for C3 at a concrete canvas and the particle `edgeParticle`. -/
theorem c3_edge_policies_witness :
    (((edgeParticle.x + edgeParticle.vx * 1 < -edgeParticle.radius →
        (updateParticle 800 600 1 0 edgeParticle).x = 800 + edgeParticle.radius) ∧
      (edgeParticle.x + edgeParticle.vx * 1 > 800 + edgeParticle.radius →
        (updateParticle 800 600 1 0 edgeParticle).x = -edgeParticle.radius) ∧
      (edgeParticle.y + edgeParticle.vy * 1 < -edgeParticle.radius →
        (updateParticle 800 600 1 0 edgeParticle).y = 600 + edgeParticle.radius) ∧
      (edgeParticle.y + edgeParticle.vy * 1 > 600 + edgeParticle.radius →
        (updateParticle 800 600 1 0 edgeParticle).y = -edgeParticle.radius)) ∧
     (updateParticle 800 600 1 0 edgeParticle).vx = edgeParticle.vx ∧
     (updateParticle 800 600 1 0 edgeParticle).vy = edgeParticle.vy) ∧
    ((part000Update 800 600 edgeParticle).x = edgeParticle.x + edgeParticle.vx ∧
     (part000Update 800 600 edgeParticle).y = edgeParticle.y + edgeParticle.vy ∧
     (edgeParticle.x + edgeParticle.vx < 0 ∨ edgeParticle.x + edgeParticle.vx > 800 →
       (part000Update 800 600 edgeParticle).vx = -edgeParticle.vx) ∧
     (¬(edgeParticle.x + edgeParticle.vx < 0 ∨ edgeParticle.x + edgeParticle.vx > 800) →
       (part000Update 800 600 edgeParticle).vx = edgeParticle.vx) ∧
     (edgeParticle.y + edgeParticle.vy < 0 ∨ edgeParticle.y + edgeParticle.vy > 600 →
       (part000Update 800 600 edgeParticle).vy = -edgeParticle.vy) ∧
     (¬(edgeParticle.y + edgeParticle.vy < 0 ∨ edgeParticle.y + edgeParticle.vy > 600) →
       (part000Update 800 600 edgeParticle).vy = edgeParticle.vy)) :=
  c3_edge_policies 800 600 1 0 edgeParticle (by norm_num) (by norm_num)
    (by norm_num [edgeParticle])

theorem connectionEntry_eq_some (ps : List Particle) (a b : ℕ) (pr : ℕ × ℕ)
    (h : connectionEntry ps a b = some pr) :
    pr = (a, b) ∧ ∃ p q, ps.get? a = some p ∧ ps.get? b = some q ∧
      distSq p q < maxDistance * maxDistance := by
  unfold connectionEntry at h
  rcases hp : ps.get? a with _ | p <;> rw [hp] at h
  · rw [Option.none_bind] at h
    exact Option.noConfusion h
  · rw [Option.some_bind] at h
    rcases hq : ps.get? b with _ | q <;> rw [hq] at h
    · rw [Option.none_bind] at h
      exact Option.noConfusion h
    · rw [Option.some_bind] at h
      by_cases hd : distSq p q < maxDistance * maxDistance
      · rw [if_pos hd] at h
        exact ⟨(Option.some_inj.mp h).symm, p, q, rfl, rfl, hd⟩
      · rw [if_neg hd] at h
        exact Option.noConfusion h

/-- Membership in the `drawConnections` output characterised by the squared
distance comparison the source performs. -/
theorem mem_drawConnections (ps : List Particle) (i j : ℕ) (p q : Particle)
    (hi : ps.get? i = some p) (hj : ps.get? j = some q) (hij : i < j) :
    (i, j) ∈ drawConnections ps ↔ distSq p q < maxDistance * maxDistance := by
  unfold drawConnections
  rw [List.mem_flatMap]
  constructor
  · rintro ⟨a, _, hmem⟩
    rw [List.mem_filterMap] at hmem
    obtain ⟨b, _, hb⟩ := hmem
    obtain ⟨heq, p2, q2, hp2, hq2, hd⟩ := connectionEntry_eq_some ps a b (i, j) hb
    obtain ⟨ha, hb2⟩ := Prod.mk.injEq i j a b ▸ heq
    rw [← ha] at hp2
    rw [← hb2] at hq2
    rw [hi] at hp2
    rw [hj] at hq2
    rw [Option.some_inj.mp hp2, Option.some_inj.mp hq2]
    exact hd
  · intro hd
    have hjlen : j < ps.length := (List.get?_eq_some.mp hj).1
    refine ⟨i, by rw [List.mem_range]; omega, ?_⟩
    rw [List.mem_filterMap]
    refine ⟨j, by rw [List.mem_range'_1]; omega, ?_⟩
    unfold connectionEntry
    rw [hi, hj, Option.some_bind, Option.some_bind, if_pos hd]

theorem part000ConnectionEntry_eq_some (ps : List Particle) (a b : ℕ) (pr : ℕ × ℕ)
    (h : part000ConnectionEntry ps a b = some pr) :
    pr = (a, b) ∧ ∃ p q, ps.get? a = some p ∧ ps.get? b = some q ∧
      distSq p q < part000ConnectionDistance * part000ConnectionDistance := by
  unfold part000ConnectionEntry at h
  rcases hp : ps.get? a with _ | p <;> rw [hp] at h
  · rw [Option.none_bind] at h
    exact Option.noConfusion h
  · rw [Option.some_bind] at h
    rcases hq : ps.get? b with _ | q <;> rw [hq] at h
    · rw [Option.none_bind] at h
      exact Option.noConfusion h
    · rw [Option.some_bind] at h
      by_cases hd : distSq p q < part000ConnectionDistance * part000ConnectionDistance
      · rw [if_pos hd] at h
        exact ⟨(Option.some_inj.mp h).symm, p, q, rfl, rfl, hd⟩
      · rw [if_neg hd] at h
        exact Option.noConfusion h

/-- Membership in the function-based pass's output characterised by the
squared distance comparison (the source compares the `Math.hypot` distance
with 150; both sides are nonnegative). -/
theorem mem_part000Connections (ps : List Particle) (i j : ℕ) (p q : Particle)
    (hi : ps.get? i = some p) (hj : ps.get? j = some q) (hij : i < j) :
    (i, j) ∈ part000Connections ps ↔
      distSq p q < part000ConnectionDistance * part000ConnectionDistance := by
  unfold part000Connections
  rw [List.mem_flatMap]
  constructor
  · rintro ⟨a, _, hmem⟩
    rw [List.mem_filterMap] at hmem
    obtain ⟨b, _, hb⟩ := hmem
    obtain ⟨heq, p2, q2, hp2, hq2, hd⟩ := part000ConnectionEntry_eq_some ps a b (i, j) hb
    obtain ⟨ha, hb2⟩ := Prod.mk.injEq i j a b ▸ heq
    rw [← ha] at hp2
    rw [← hb2] at hq2
    rw [hi] at hp2
    rw [hj] at hq2
    rw [Option.some_inj.mp hp2, Option.some_inj.mp hq2]
    exact hd
  · intro hd
    have hjlen : j < ps.length := (List.get?_eq_some.mp hj).1
    refine ⟨i, by rw [List.mem_range]; omega, ?_⟩
    rw [List.mem_filterMap]
    refine ⟨j, by rw [List.mem_range'_1]; omega, ?_⟩
    unfold part000ConnectionEntry
    rw [hi, hj, Option.some_bind, Option.some_bind, if_pos hd]

/-- C2 counterexample: in the connection pass of `src/unnamed/part_000` the
line opacity at distance 0 is `0.1 * (1 - 0 / 150) = 0.1`, not the claimed
`(1 - distance / threshold) * 0.15 = 0.15`, so the claimed opacity formula
fails on that cited pass. -/
theorem c2_counterexample :
    part000Opacity 0 = 1 / 10 ∧
    ¬ part000Opacity 0 = (1 - 0 / part000ConnectionDistance) * (15 / 100) := by
  norm_num [part000Opacity, part000ConnectionDistance]

/-- C2 amended: in one invocation of connection rendering over the particle
list, a line is drawn between the distinct particles at positions `i < j`
iff their Euclidean distance is strictly below the system's fixed threshold
— 80 in the class-based pass, 150 in the function-based pass of
`src/unnamed/part_000` — and each system's opacity formula,
`(1 - distance / 80) * 0.15` respectively `0.1 * (1 - distance / 150)`, is
strictly decreasing in the distance on `[0, threshold)`. -/
theorem c2_connection_iff_mono (ps : List Particle) (i j : ℕ) (p q : Particle)
    (hi : ps.get? i = some p) (hj : ps.get? j = some q) (hij : i < j) :
    ((i, j) ∈ drawConnections ps ↔
      Real.sqrt ((distSq p q : ℚ) : ℝ) < ((maxDistance : ℚ) : ℝ)) ∧
    (∀ d1 d2 : ℚ, 0 ≤ d1 → d1 < d2 → d2 < maxDistance →
      connectionOpacity d2 < connectionOpacity d1) ∧
    ((i, j) ∈ part000Connections ps ↔
      Real.sqrt ((distSq p q : ℚ) : ℝ) < ((part000ConnectionDistance : ℚ) : ℝ)) ∧
    (∀ d1 d2 : ℚ, 0 ≤ d1 → d1 < d2 → d2 < part000ConnectionDistance →
      part000Opacity d2 < part000Opacity d1) := by
  refine ⟨?_, ?_, ?_, ?_⟩
  · rw [mem_drawConnections ps i j p q hi hj hij]
    rw [Real.sqrt_lt' (by norm_num [maxDistance])]
    rw [show (((maxDistance : ℚ) : ℝ)) ^ 2 = ((maxDistance * maxDistance : ℚ) : ℝ) by
      push_cast; ring]
    exact (Rat.cast_lt (K := ℝ)).symm
  · intro d1 d2 h0 h12 h2
    unfold connectionOpacity maxDistance
    linarith
  · rw [mem_part000Connections ps i j p q hi hj hij]
    rw [Real.sqrt_lt' (by norm_num [part000ConnectionDistance])]
    rw [show (((part000ConnectionDistance : ℚ) : ℝ)) ^ 2
          = ((part000ConnectionDistance * part000ConnectionDistance : ℚ) : ℝ) by
      push_cast; ring]
    exact (Rat.cast_lt (K := ℝ)).symm
  · intro d1 d2 h0 h12 h2
    unfold part000Opacity part000ConnectionDistance
    linarith

/-- Witness for C2 on a concrete two-particle list at distance 60. -/
theorem c2_connection_iff_mono_witness :
    (((0, 1) ∈ drawConnections [exampleParticleA, exampleParticleB] ↔
        Real.sqrt ((distSq exampleParticleA exampleParticleB : ℚ) : ℝ) <
          ((maxDistance : ℚ) : ℝ)) ∧
     (∀ d1 d2 : ℚ, 0 ≤ d1 → d1 < d2 → d2 < maxDistance →
       connectionOpacity d2 < connectionOpacity d1) ∧
     ((0, 1) ∈ part000Connections [exampleParticleA, exampleParticleB] ↔
        Real.sqrt ((distSq exampleParticleA exampleParticleB : ℚ) : ℝ) <
          ((part000ConnectionDistance : ℚ) : ℝ)) ∧
     (∀ d1 d2 : ℚ, 0 ≤ d1 → d1 < d2 → d2 < part000ConnectionDistance →
       part000Opacity d2 < part000Opacity d1)) :=
  c2_connection_iff_mono [exampleParticleA, exampleParticleB] 0 1
    exampleParticleA exampleParticleB rfl rfl (by norm_num)

/-- C8: on a surface of 800 by 600 with particles at `(10, 10)` and
`(70, 10)` and threshold 80, exactly one connection line is drawn, at
distance 60 and opacity `(1 - 60 / 80) * 0.15 = 0.0375`. -/
theorem c8_numeric_example :
    drawConnections [exampleParticleA, exampleParticleB] = [(0, 1)] ∧
    distSq exampleParticleA exampleParticleB = 60 * 60 ∧
    Real.sqrt ((distSq exampleParticleA exampleParticleB : ℚ) : ℝ) = 60 ∧
    connectionOpacity 60 = 0.0375 := by
  have hd : distSq exampleParticleA exampleParticleB = 60 * 60 := by
    norm_num [distSq, exampleParticleA, exampleParticleB]
  have hentry : connectionEntry [exampleParticleA, exampleParticleB] 0 1 = some (0, 1) := by
    unfold connectionEntry
    rw [show ([exampleParticleA, exampleParticleB].get? 0) = some exampleParticleA from rfl,
      show ([exampleParticleA, exampleParticleB].get? 1) = some exampleParticleB from rfl,
      Option.some_bind, Option.some_bind, if_pos (by rw [hd]; norm_num [maxDistance])]
  refine ⟨?_, hd, ?_, ?_⟩
  · unfold drawConnections
    simp only [List.length_cons, List.length_nil]
    rw [show List.range (0 + 1 + 1) = [0, 1] from rfl]
    simp only [List.flatMap_cons, List.flatMap_nil]
    rw [show List.range' (0 + 1) (0 + 1 + 1 - (0 + 1)) = [1] from rfl]
    rw [show List.range' (1 + 1) (0 + 1 + 1 - (1 + 1)) = ([] : List ℕ) from rfl]
    simp only [List.filterMap_cons, List.filterMap_nil, hentry, List.append_nil,
      List.nil_append]
  · rw [hd]
    rw [show ((((60 : ℚ) * 60 : ℚ)) : ℝ) = (60 : ℝ) ^ 2 by norm_num]
    rw [Real.sqrt_sq (by norm_num)]
  · norm_num [connectionOpacity, maxDistance]

/-- C4 counterexample: the function-based animation loop of
`src/unnamed/part_000` maintains 50 particles, which is not at most 40, so
"the number of particles maintained by any particle animation loop in the
repository is at most 40" fails on that loop. -/
theorem c4_counterexample :
    (part000Particles fun _ => exampleParticleA).length = 50 ∧
    ¬ (part000Particles fun _ => exampleParticleA).length ≤ 40 := by
  constructor
  · rw [show (part000Particles fun _ => exampleParticleA).length = 50 from by
      unfold part000Particles part000ParticleCount
      rw [List.length_map, List.length_range]]
  · rw [show (part000Particles fun _ => exampleParticleA).length = 50 from by
      unfold part000Particles part000ParticleCount
      rw [List.length_map, List.length_range]]
    decide

/-- C4 amended: every class-based particle system keeps at most 40 particles
(whatever the device heuristics report, also after the no-WebGL clamp), while
the function-based loop of `src/unnamed/part_000` maintains exactly 50; so
the bound holding across every loop of the repository is 50, not 40. -/
theorem c4_particle_count_bounds (lowPerfDevice : Bool) (iw : ℕ)
    (gl webglSupport : Bool) (mk : ℕ → Particle) :
    getParticleCount lowPerfDevice iw gl ≤ 40 ∧
    constructorParticleCount lowPerfDevice iw gl webglSupport ≤ 40 ∧
    (part000Particles mk).length = 50 ∧
    (part000Particles mk).length ≤ 50 := by
  have hg : getParticleCount lowPerfDevice iw gl ≤ 40 := by
    unfold getParticleCount
    split_ifs <;> omega
  have h50 : (part000Particles mk).length = 50 := by
    unfold part000Particles part000ParticleCount
    rw [List.length_map, List.length_range]
  refine ⟨hg, ?_, h50, by omega⟩
  unfold constructorParticleCount
  split_ifs
  · exact hg
  · omega

/-- C5 counterexample: with a working canvas and the reduced-motion
preference reported, the constructor still invokes the particle count
computation `getParticleCount` (line 8 runs before the reduced-motion check
at line 21), so "the particle-count initializers (particle count computation
and particle array population) are not invoked" fails. -/
theorem c5_counterexample :
    CtorStep.getCount ∈ constructorCalls true true := by
  unfold constructorCalls
  exact List.mem_cons_self _ _

/-- C5 amended: when the host reports the reduced-motion preference at
construction time, the constructor never invokes `animate` (so no animation
frame is ever scheduled, and no listeners that could restart it are
attached) and never populates the particle array via `init`; the particle
count computation `getParticleCount`, however, is invoked unconditionally
before the reduced-motion check. -/
theorem c5_reduced_motion (canvasOk : Bool) :
    CtorStep.animateStart ∉ constructorCalls canvasOk true ∧
    CtorStep.initParticles ∉ constructorCalls canvasOk true ∧
    CtorStep.listeners ∉ constructorCalls canvasOk true ∧
    CtorStep.getCount ∈ constructorCalls canvasOk true := by
  cases canvasOk <;> unfold constructorCalls <;> simp

theorem frameCountAfter_eq (n : ℕ) : frameCountAfter n = n := by
  induction n with
  | zero => rfl
  | succ n ih => unfold frameCountAfter; rw [ih]

/-- C6 counterexample: the function-based loop of `src/unnamed/part_000`
renders connection lines on frame 1, an odd frame, so "connection lines are
rendered only on alternating animation frames (every frame where the frame
counter is even)" fails on that loop. -/
theorem c6_counterexample :
    FrameOp.connections ∈ part000Frame 1 ∧ ¬ (1 % 2 = 0) := by
  constructor
  · unfold part000Frame
    simp
  · decide

/-- C6 amended: in the class-based system the n-th frame renders connection
lines exactly when the frame counter n is even, while particle updates and
particle rendering happen on every frame (and the counter after n frames is
n); the function-based loop of `src/unnamed/part_000` instead renders
connections on every frame. -/
theorem c6_alternating_frames (n : ℕ) :
    (FrameOp.connections ∈ scriptFrame n ↔ n % 2 = 0) ∧
    FrameOp.updateAndDraw ∈ scriptFrame n ∧
    FrameOp.clearSurface ∈ scriptFrame n ∧
    frameCountAfter n = n ∧
    FrameOp.connections ∈ part000Frame n ∧
    FrameOp.updateAndDraw ∈ part000Frame n := by
  refine ⟨?_, ?_, ?_, frameCountAfter_eq n, ?_, ?_⟩
  · by_cases hpar : n % 2 = 0
    · rw [iff_true_intro hpar, iff_true]
      unfold scriptFrame
      rw [if_pos hpar]
      simp
    · rw [iff_false_intro hpar, iff_false]
      unfold scriptFrame
      rw [if_neg hpar]
      simp
  · unfold scriptFrame
    split_ifs <;> simp
  · unfold scriptFrame
    split_ifs <;> simp
  · unfold part000Frame
    simp
  · unfold part000Frame
    simp

/-- Every event preserves the single-loop invariant. -/
theorem stepEvent_inv (st : SysState) (hs : SysInv st) (e : SysEvent) :
    SysInv (stepEvent st e) := by
  obtain ⟨h1, h2⟩ := hs
  cases e with
  | frameFired =>
      simp only [stepEvent, animateBody, SysInv]
      split_ifs with hp hv
      · exact ⟨h1, h2⟩
      · dsimp only
        refine ⟨by omega, ⟨fun hcon => absurd hcon (by simp), fun hcon => absurd hcon (by omega)⟩⟩
      · dsimp only
        refine ⟨by omega, ⟨fun hcon => by omega, fun hcon => rfl⟩⟩
  | visibilityChange b =>
      simp only [stepEvent, animateBody, SysInv]
      split_ifs with hb hv
      · rw [Bool.and_eq_true] at hb
        rw [hv] at hb
        exact absurd hb.1 (by simp)
      · dsimp only
        rw [Bool.and_eq_true, Bool.not_eq_true'] at hb
        have hne : st.pending ≠ 1 := fun hcon => by
          rw [h2.mpr hcon] at hb
          exact Bool.noConfusion hb.2
        refine ⟨by omega, ⟨fun hcon => by omega, fun hcon => rfl⟩⟩
      · exact ⟨h1, h2⟩

/-- C7: the initial state satisfies the single-loop invariant, every event
(frames firing, visibility loss, visibility return) preserves it, and after
the visibility-return event exactly one frame callback is scheduled — so
losing and regaining visibility resumes exactly one frame-scheduling chain
and no two concurrent animation loops ever run. -/
theorem c7_single_resume (st : SysState) (hs : SysInv st) :
    SysInv initState ∧
    (∀ e, SysInv (stepEvent st e)) ∧
    (stepEvent st (SysEvent.visibilityChange true)).pending = 1 := by
  refine ⟨by decide, fun e => stepEvent_inv st hs e, ?_⟩
  obtain ⟨h1, h2⟩ := hs
  simp only [stepEvent, animateBody]
  split_ifs with hb hv
  · exact absurd hv (by simp)
  · dsimp only
    rw [Bool.and_eq_true, Bool.not_eq_true'] at hb
    have hne : st.pending ≠ 1 := fun hcon => by
      rw [h2.mpr hcon] at hb
      exact Bool.noConfusion hb.2
    omega
  · dsimp only
    have hid : st.animationId = true := by
      by_contra hcon
      rw [Bool.not_eq_true] at hcon
      apply hb
      rw [hcon]
      rfl
    exact h2.mp hid

/-- Witness for C7 at the initial state. -/
theorem c7_single_resume_witness :
    SysInv initState ∧
    (∀ e, SysInv (stepEvent initState e)) ∧
    (stepEvent initState (SysEvent.visibilityChange true)).pending = 1 :=
  c7_single_resume initState (by decide)

/-- C9: `destroy` is idempotent — after one call the frame handle is null
and no frame is pending, and a second call performs no cancellation and
leaves the state unchanged. -/
theorem c9_destroy_idempotent (st : SysState) (hs : SysInv st) :
    (destroy st).animationId = false ∧ (destroy st).pending = 0 ∧
    destroy (destroy st) = destroy st := by
  obtain ⟨h1, h2⟩ := hs
  by_cases hid : st.animationId = true
  · have hone : destroy st =
        { st with animationId := false, pending := st.pending - 1 } := by
      unfold destroy
      rw [if_pos hid]
    have hp : st.pending = 1 := h2.mp hid
    refine ⟨by rw [hone], by rw [hone]; dsimp only; omega, ?_⟩
    rw [hone]
    unfold destroy
    rw [if_neg (fun hcon => Bool.noConfusion hcon)]
  · have hzero : st.pending = 0 := by
      rcases Nat.le_one_iff_eq_zero_or_eq_one.mp h1 with h | h
      · exact h
      · exact absurd (h2.mpr h) hid
    have hnone : destroy st = st := by
      unfold destroy
      rw [if_neg hid]
    rw [hnone, hnone]
    exact ⟨Bool.eq_false_iff.mpr hid, hzero, rfl⟩

/-- Witness for C9 at the initial state. -/
theorem c9_destroy_idempotent_witness :
    (destroy initState).animationId = false ∧ (destroy initState).pending = 0 ∧
    destroy (destroy initState) = destroy initState :=
  c9_destroy_idempotent initState (by decide)

/-- C10: after every animation step the particle's opacity is the freshly
computed pulse value `0.3 + 0.2 * sin(now * pulseSpeed)` — independent of
whatever opacity the particle had, so the first step discards the
initialized value — and hence lies in `[0.1, 0.5]`; the initialized opacity
`Math.random() * 0.6 + 0.2`, by contrast, lies in `[0.2, 0.8)`. `s` stands
for the sine sample (any value in `[-1, 1]`), `r` for the random sample
(any value in `[0, 1)`). -/
theorem c10_opacity_bounds (w h dt s r : ℚ) (p : Particle)
    (hs0 : -1 ≤ s) (hs1 : s ≤ 1) (hr0 : 0 ≤ r) (hr1 : r < 1) :
    (updateParticle w h dt s p).opacity = pulseOpacity s ∧
    1 / 10 ≤ (updateParticle w h dt s p).opacity ∧
    (updateParticle w h dt s p).opacity ≤ 1 / 2 ∧
    1 / 5 ≤ initOpacity r ∧ initOpacity r < 4 / 5 := by
  have hop : (updateParticle w h dt s p).opacity = pulseOpacity s := by
    unfold updateParticle
    rw [wrapY_opacity, wrapX_opacity]
  refine ⟨hop, ?_, ?_, ?_, ?_⟩
  · rw [hop]
    unfold pulseOpacity
    linarith
  · rw [hop]
    unfold pulseOpacity
    linarith
  · unfold initOpacity
    linarith
  · unfold initOpacity
    linarith

/-- Witness for C10 at a concrete particle, sine sample 0 and random
sample 0. -/
theorem c10_opacity_bounds_witness :
    (updateParticle 800 600 1 0 exampleParticleA).opacity = pulseOpacity 0 ∧
    1 / 10 ≤ (updateParticle 800 600 1 0 exampleParticleA).opacity ∧
    (updateParticle 800 600 1 0 exampleParticleA).opacity ≤ 1 / 2 ∧
    1 / 5 ≤ initOpacity 0 ∧ initOpacity 0 < 4 / 5 :=
  c10_opacity_bounds 800 600 1 0 0 exampleParticleA
    (by norm_num) (by norm_num) (by norm_num) (by norm_num)

end Website
